import Mathlib

/-!
Shallow embedding of the gem5 parameter-sweep harness (aca.py and
source/run_utils.py) and proofs about its specification claims.

Files are modelled as lists of lines, subprocesses as their integer return
codes, and Python exceptions as an explicit error type threaded through
`Except`.
-/

set_option autoImplicit false

deriving instance DecidableEq for Except

/-- Python exception values raised by the embedded functions. -/
inductive PyExc where
  /-- `raise Exception(msg)` -/
  | exception (msg : String)
  /-- `raise ValueError(msg)` -/
  | valueError (msg : String)
  /-- reading a local variable that was never assigned (UnboundLocalError) -/
  | unboundLocal (name : String)
  /-- ZeroDivisionError -/
  | zeroDivision
  /-- IndexError from list indexing -/
  | indexError
  /-- TypeError from an operation on None -/
  | typeError
  /-- subprocess.CalledProcessError carrying the return code -/
  | calledProcessError (returncode : Int)
  deriving DecidableEq, Repr

/-- Python `s.startswith(t)`. -/
def pyStartsWith (s t : String) : Bool := t.data.isPrefixOf s.data

/-- Python `s.endswith(t)`. -/
def pyEndsWith (s t : String) : Bool := t.data.reverse.isPrefixOf s.data.reverse

/-- Python `s[:-1]` (all characters but the last; `""` stays `""`). -/
def pySliceMinus1 (s : String) : String := ⟨s.data.dropLast⟩

/-- Python `s[:-2]` (all characters but the last two). -/
def pySliceMinus2 (s : String) : String := ⟨s.data.dropLast.dropLast⟩

/-- Python `s.upper()` on the ASCII strings used here. -/
def pyUpper (s : String) : String := ⟨s.data.map Char.toUpper⟩

/-- Python `s.lower()` on the ASCII strings used here. -/
def pyLower (s : String) : String := ⟨s.data.map Char.toLower⟩

/-- Python `s.isdigit()` on ASCII strings: nonempty and all decimal digits. -/
def pyIsDigit (s : String) : Bool := !s.data.isEmpty && s.data.all Char.isDigit

/-- Numeric value of a string of decimal digits. -/
def digitsToNat (ds : List Char) : Nat := ds.foldl (fun n c => 10 * n + (c.toNat - 48)) 0

/-- Python `int(s)` on a whitespace-free field: optional sign then decimal
digits, anything else raises ValueError. -/
def pyInt (s : String) : Except PyExc Int :=
  match s.data with
  | [] => .error (.valueError s)
  | c :: cs =>
    if c = '-' then
      if !cs.isEmpty && cs.all Char.isDigit then .ok (-(digitsToNat cs : Int))
      else .error (.valueError s)
    else if c = '+' then
      if !cs.isEmpty && cs.all Char.isDigit then .ok (digitsToNat cs : Int)
      else .error (.valueError s)
    else if (c :: cs).all Char.isDigit then .ok (digitsToNat (c :: cs) : Int)
    else .error (.valueError s)

/-- Helper for `pySplit`: splits a character list into maximal runs of
non-whitespace characters; `acc` holds the current run reversed. -/
def pySplitAux : List Char → List Char → List (List Char)
  | [], acc => if acc.isEmpty then [] else [acc.reverse]
  | c :: cs, acc =>
    if c.isWhitespace then
      if acc.isEmpty then pySplitAux cs [] else acc.reverse :: pySplitAux cs []
    else pySplitAux cs (c :: acc)

/-- Python `s.split()` with no arguments: split on whitespace runs, dropping
empty fields. -/
def pySplit (s : String) : List String := (pySplitAux s.data []).map fun cs => ⟨cs⟩

/-- Python list indexing `l[i]`, raising IndexError when out of range. -/
def pyIndex {α : Type} (l : List α) (i : Nat) : Except PyExc α :=
  match l.get? i with
  | some x => .ok x
  | none => .error .indexError

/-- The expression `int(line.split()[1])` used by both statistics parsers. -/
def intField (line : String) : Except PyExc Int :=
  match pyIndex (pySplit line) 1 with
  | .error e => .error e
  | .ok w => pyInt w

/-- Value of a digit run read as the fractional part after a decimal point. -/
def fracOfDigits (ds : List Char) : Rat := (digitsToNat ds : Rat) / ((10 : Rat) ^ ds.length)

/-- Magnitude part of Python `float(s)`: digits with an optional decimal
point, at least one digit overall. -/
def pyFloatMag (cs : List Char) : Option Rat :=
  match cs.splitOn '.' with
  | [a] => if !a.isEmpty && a.all Char.isDigit then some (digitsToNat a : Rat) else none
  | [a, b] =>
    if a.all Char.isDigit && b.all Char.isDigit && !(a.isEmpty && b.isEmpty) then
      some ((digitsToNat a : Rat) + fracOfDigits b)
    else none
  | _ => none

/-- Python `float(s)` restricted to the plain decimal forms gem5 statistics
use (optional sign, digits, optional fractional part); anything else raises
ValueError. -/
def pyFloat (s : String) : Except PyExc Rat :=
  match s.data with
  | '-' :: rest =>
    match pyFloatMag rest with
    | some r => .ok (-r)
    | none => .error (.valueError s)
  | '+' :: rest =>
    match pyFloatMag rest with
    | some r => .ok r
    | none => .error (.valueError s)
  | cs =>
    match pyFloatMag cs with
    | some r => .ok r
    | none => .error (.valueError s)

/-- Decides the anchored regular-expression pattern `\d+(p)?B` where `p`
ranges over `allowed` — `['K','M']` for aca.py's check (applied to the
upper-cased string) and `['k','M']` for run_utils.py's check. -/
def matchesSizePattern (allowed : List Char) (s : String) : Bool :=
  match s.data.reverse with
  | 'B' :: rest =>
    (!rest.isEmpty && rest.all Char.isDigit) ||
    (match rest with
     | c :: rest2 => allowed.contains c && !rest2.isEmpty && rest2.all Char.isDigit
     | [] => false)
  | _ => false

/-- True exactly when the modelled Python call completed without raising. -/
def exceptIsOk {α : Type} : Except PyExc α → Bool
  | .ok _ => true
  | .error _ => false

/-- `Popen.wait()`: returns the process return code; it raises
`CalledProcessError` never (that exception comes only from
`subprocess.run(check=True)`/`check_call`, which this code does not use). -/
def popenWait (returncode : Int) : Except PyExc Int := .ok returncode

namespace Aca

/-- aca.py `size_string_to_int` (lines 80-89): note the decimal multipliers
1000 and 1000*1000, and the fall-through to Python `None` (here
`Option.none`) when the prefix minus two characters is all digits but the
suffix is neither `kB` nor `MB`. -/
def size_string_to_int (benchmark_size : String) : Except PyExc (Option Nat) :=
  if pyIsDigit (pySliceMinus1 benchmark_size) && pyEndsWith benchmark_size "B" then
    .ok (some (digitsToNat (pySliceMinus1 benchmark_size).data))
  else if pyIsDigit (pySliceMinus2 benchmark_size) then
    if pyEndsWith benchmark_size "kB" then
      .ok (some (digitsToNat (pySliceMinus2 benchmark_size).data * 1000))
    else if pyEndsWith benchmark_size "MB" then
      .ok (some (digitsToNat (pySliceMinus2 benchmark_size).data * 1000 * 1000))
    else .ok none
  else .error (.valueError ("Invalid benchmark_size: " ++ benchmark_size))

/-- Loop of aca.py `cpi()` (lines 68-78) over the remaining lines of
stats.txt; `ic` models the local `instruction_count`, `none` meaning the
variable was never assigned.  The local `cycle_count` is assigned only
immediately before the `return`, so at the post-loop checks it is always
unbound; the post-loop `if not instruction_count` / `elif not cycle_count`
checks are modelled exactly, including the UnboundLocalError each one hits
when its variable was never assigned. -/
def cpiLoop : List String → Option Int → Except PyExc Rat
  | [], ic =>
    match ic with
    | none => .error (.unboundLocal "instruction_count")
    | some n =>
      if n = 0 then .error (.exception "Could not find instruction count in stats.txt")
      else .error (.unboundLocal "cycle_count")
  | line :: rest, ic =>
    if pyStartsWith line "simInsts" then
      match intField line with
      | .error e => .error e
      | .ok n => cpiLoop rest (some n)
    else if pyStartsWith line "system.cpu.numCycles" then
      match intField line with
      | .error e => .error e
      | .ok m =>
        match ic with
        | none => .error (.unboundLocal "instruction_count")
        | some n => if n = 0 then .error .zeroDivision else .ok ((m : Rat) / (n : Rat))
    else cpiLoop rest ic

/-- aca.py `cpi()` (lines 63-78); stats.txt is given as its list of lines
(`readline` returns `""` exactly at end of file, so the `while line:` loop
visits each line once and the initial emptiness check is the empty-list
case). -/
def cpi (lines : List String) : Except PyExc Rat :=
  match lines with
  | [] => .error (.exception "Empty stats.txt")
  | _ :: _ => cpiLoop lines none

/-- The `try: process.wait() except subprocess.CalledProcessError` block of
aca.py run_benchmark (lines 52-58): the handler re-raises a labelled
Exception, but `popenWait` produces `CalledProcessError` never, so the
handler is unreachable.  (The `except KeyboardInterrupt` arm concerns an
external signal and is outside this embedding.) -/
def waitHandled (returncode : Int) : Except PyExc Int :=
  match popenWait returncode with
  | .ok rc => .ok rc
  | .error (.calledProcessError rc) =>
    .error (.exception ("Command failed with return code " ++ toString rc))
  | .error e => .error e

/-- Benchmark selection in aca.py run_benchmark (lines 13-26): binary path
and the list of argument strings, one simulator invocation each. -/
def benchArgs (benchmark benchmark_size : String) : Except PyExc (String × List String) :=
  if pyLower benchmark = "susan" then
    .ok ("./benchmarks/automotive/susan/susan",
      ["./benchmarks/automotive/susan/input_" ++ benchmark_size ++
         ".pgm ./benchmarks/automotive/susan/output_" ++ benchmark_size ++ ".smoothing.pgm -s",
       "./benchmarks/automotive/susan/input_" ++ benchmark_size ++
         ".pgm ./benchmarks/automotive/susan/output_" ++ benchmark_size ++ ".edges.pgm -e",
       "./benchmarks/automotive/susan/input_" ++ benchmark_size ++
         ".pgm ./benchmarks/automotive/susan/output_" ++ benchmark_size ++ ".corners.pgm -c"])
  else if pyLower benchmark = "crc" then
    .ok ("./benchmarks/telecomm/CRC32/crc",
      ["./benchmarks/telecomm/adpcm/data/" ++ benchmark_size ++ ".pcm"])
  else .error (.exception ("Invalid benchmark '" ++ benchmark ++ "'"))

/-- Architecture selection in aca.py run_benchmark (lines 28-31). -/
def archBinary (architecture binary : String) : Except PyExc String :=
  if pyUpper architecture = "ARM" then .ok (binary ++ ".arm")
  else if pyUpper architecture = "X86" then .ok binary
  else .error (.exception ("Invalid architecture '" ++ architecture ++ "'"))

/-- One gem5 command line of aca.py run_benchmark (lines 40-50). -/
def mkCommand (architecture binary argument icache_size dcache_size : String) : List String :=
  ["./gem5/build/" ++ pyUpper architecture ++ "/gem5.opt",
   "./gem5/configs/example/se.py",
   "--cmd=" ++ binary,
   "--options=" ++ argument,
   "--cpu-type=TimingSimpleCPU",
   "--caches",
   "--l1i_size=" ++ icache_size,
   "--l1d_size=" ++ dcache_size]

/-- The subprocess loop of aca.py run_benchmark (lines 39-61): each command
is launched and waited on (`codes i` is the exit status of the `i`-th
process); the collected result is the list of commands invoked. -/
def runCommands (codes : Nat → Int) (i : Nat) : List (List String) → Except PyExc (List (List String))
  | [] => .ok []
  | c :: cs =>
    match waitHandled (codes i) with
    | .error e => .error e
    | .ok _ =>
      match runCommands codes (i + 1) cs with
      | .error e => .error e
      | .ok rest => .ok (c :: rest)

/-- aca.py `run_benchmark` (lines 12-61).  Returns the list of simulator
commands invoked; an error is raised, as in the source, before any command
is built (the cache-size checks use the pattern over K|M against the
UPPER-cased string, so lowercase suffixes survive them). -/
def run_benchmark (codes : Nat → Int)
    (architecture benchmark icache_size dcache_size benchmark_size : String) :
    Except PyExc (List (List String)) :=
  match benchArgs benchmark benchmark_size with
  | .error e => .error e
  | .ok (binary0, arguments) =>
    match archBinary architecture binary0 with
    | .error e => .error e
    | .ok binary =>
      if matchesSizePattern ['K', 'M'] (pyUpper icache_size) = false then
        .error (.exception ("Invalid icache benchmark_size '" ++ icache_size ++ "'"))
      else if matchesSizePattern ['K', 'M'] (pyUpper dcache_size) = false then
        .error (.exception ("Invalid dcache benchmark_size '" ++ dcache_size ++ "'"))
      else
        runCommands codes 0
          (arguments.map fun argument => mkCommand architecture binary argument icache_size dcache_size)

/-- External behaviour of the simulator during a sweep: for the point
`(architecture, benchmark, icache_size, dcache_size)`, `codes` gives the
exit status of each subprocess launched there and `stats` the lines of
`m5out/stats.txt` afterwards. -/
structure SimEnv where
  codes : String → String → String → String → Nat → Int
  stats : String → String → String → String → List String

/-- One CSV data row written by the aca.py sweep loop (line 239-241):
upper-cased architecture, lower-cased benchmark, the two converted cache
sizes (Python `None` when `size_string_to_int` falls through), and the CPI
value. -/
structure Row where
  architecture : String
  benchmark : String
  icache : Option Nat
  dcache : Option Nat
  cpiValue : Rat
  deriving DecidableEq, Repr

/-- The body of the innermost loop of the aca.py `__main__` sweep
(lines 226-242): run the benchmark, then build the CSV row, evaluating
`size_string_to_int(icache_size)`, `size_string_to_int(dcache_size)` and
`cpi()` in the order the f-string does. -/
def runPoint (env : SimEnv) (benchmark_size architecture benchmark icache_size dcache_size : String) :
    Except PyExc Row :=
  match run_benchmark (env.codes architecture benchmark icache_size dcache_size)
      architecture benchmark icache_size dcache_size benchmark_size with
  | .error e => .error e
  | .ok _ =>
    match size_string_to_int icache_size with
    | .error e => .error e
    | .ok iv =>
      match size_string_to_int dcache_size with
      | .error e => .error e
      | .ok dv =>
        match cpi (env.stats architecture benchmark icache_size dcache_size) with
        | .error e => .error e
        | .ok c => .ok ⟨pyUpper architecture, pyLower benchmark, iv, dv, c⟩

/-- Innermost (`for dcache_size in args.dcache_sizes`) loop of the aca.py
sweep (line 225). -/
def sweepDcs (env : SimEnv) (benchmark_size architecture benchmark icache_size : String) :
    List String → Except PyExc (List Row)
  | [] => .ok []
  | d :: ds =>
    match runPoint env benchmark_size architecture benchmark icache_size d with
    | .error e => .error e
    | .ok r =>
      match sweepDcs env benchmark_size architecture benchmark icache_size ds with
      | .error e => .error e
      | .ok rest => .ok (r :: rest)

/-- `for icache_size in args.icache_sizes` loop of the aca.py sweep
(line 224). -/
def sweepIcs (env : SimEnv) (benchmark_size architecture benchmark : String) :
    List String → List String → Except PyExc (List Row)
  | [], _ => .ok []
  | i :: ics, dcs =>
    match sweepDcs env benchmark_size architecture benchmark i dcs with
    | .error e => .error e
    | .ok rs =>
      match sweepIcs env benchmark_size architecture benchmark ics dcs with
      | .error e => .error e
      | .ok rest => .ok (rs ++ rest)

/-- `for benchmark in args.benchmarks` loop of the aca.py sweep (line 223). -/
def sweepBenchs (env : SimEnv) (benchmark_size architecture : String) :
    List String → List String → List String → Except PyExc (List Row)
  | [], _, _ => .ok []
  | b :: bs, ics, dcs =>
    match sweepIcs env benchmark_size architecture b ics dcs with
    | .error e => .error e
    | .ok rs =>
      match sweepBenchs env benchmark_size architecture bs ics dcs with
      | .error e => .error e
      | .ok rest => .ok (rs ++ rest)

/-- `for architecture in args.architectures` loop of the aca.py sweep
(line 222): the whole nested iteration, architecture outermost, data-cache
size innermost; rows are appended in iteration order and the first raised
exception aborts the sweep. -/
def sweepLoop (env : SimEnv) (benchmark_size : String) :
    List String → List String → List String → List String → Except PyExc (List Row)
  | [], _, _, _ => .ok []
  | a :: as_, bs, ics, dcs =>
    match sweepBenchs env benchmark_size a bs ics dcs with
    | .error e => .error e
    | .ok rs =>
      match sweepLoop env benchmark_size as_ bs ics dcs with
      | .error e => .error e
      | .ok rest => .ok (rs ++ rest)

end Aca

namespace RunUtils

/-- run_utils.py `size_string_to_int` (lines 102-111): binary multipliers
1024 and 1024*1024, same fall-through to `None` otherwise. -/
def size_string_to_int (size : String) : Except PyExc (Option Nat) :=
  if pyIsDigit (pySliceMinus1 size) && pyEndsWith size "B" then
    .ok (some (digitsToNat (pySliceMinus1 size).data))
  else if pyIsDigit (pySliceMinus2 size) then
    if pyEndsWith size "kB" then
      .ok (some (digitsToNat (pySliceMinus2 size).data * 1024))
    else if pyEndsWith size "MB" then
      .ok (some (digitsToNat (pySliceMinus2 size).data * 1024 * 1024))
    else .ok none
  else .error (.valueError ("Invalid size: " ++ size))

/-- Loop of run_utils.py `get_statistic` (lines 82-99).  `ic`/`cc` model the
locals `instruction_count`/`cycle_count` (`none` = never assigned; `cc` is in
fact never carried past an iteration because its assignment is immediately
followed by the `return`).  After the loop, the raise branches compare
`statistic` against `"cpi"` and `"overall_dcache_miss_rate"` — names the
callers never pass (they pass `"Cycles Per Instruction"` and
`"Overall DCache Miss Rate"`), after which the function falls off the end
and returns Python `None` (`Option.none`). -/
def getStatLoop (statistic : String) : List String → Option Int → Option Int → Except PyExc (Option Rat)
  | [], ic, cc =>
    if statistic = "cpi" then
      match ic with
      | none => .error (.unboundLocal "instruction_count")
      | some n =>
        if n = 0 then .error (.exception "Could not find instruction count in stats.txt")
        else
          match cc with
          | none => .error (.unboundLocal "cycle_count")
          | some m =>
            if m = 0 then .error (.exception "Could not find cycle count in stats.txt")
            else .ok none
    else if statistic = "overall_dcache_miss_rate" then
      .error (.exception "Could not find overall dcache miss rate in stats.txt")
    else .ok none
  | line :: rest, ic, cc =>
    if statistic = "Cycles Per Instruction" then
      if pyStartsWith line "simInsts" then
        match intField line with
        | .error e => .error e
        | .ok n => getStatLoop statistic rest (some n) cc
      else if pyStartsWith line "system.cpu.numCycles" then
        match intField line with
        | .error e => .error e
        | .ok m =>
          match ic with
          | none => .error (.unboundLocal "instruction_count")
          | some n => if n = 0 then .error .zeroDivision else .ok (some ((m : Rat) / (n : Rat)))
      else getStatLoop statistic rest ic cc
    else if statistic = "Overall DCache Miss Rate" then
      if pyStartsWith line "system.cpu.dcache.overallMissRate::cpu.data" then
        match pyIndex (pySplit line) 1 with
        | .error e => .error e
        | .ok w =>
          match pyFloat w with
          | .error e => .error e
          | .ok r => .ok (some r)
      else getStatLoop statistic rest ic cc
    else getStatLoop statistic rest ic cc

/-- run_utils.py `get_statistic` (lines 75-99); stats.txt given as its list
of lines. -/
def get_statistic (statistic : String) (lines : List String) : Except PyExc (Option Rat) :=
  match lines with
  | [] =>
    .error (.exception "Empty stats.txt, try using the --verbose flag to check simulation output")
  | _ :: _ => getStatLoop statistic lines none none

/-- run_utils.py `Variable` (lines 302-307): `units` is `None` or a unit
string such as `"B"`. -/
structure Variable where
  value : String
  argument : String
  name : String
  units : Option String
  deriving DecidableEq, Repr

/-- One iteration of the validation loop in run_utils.py `run_simulation`
(lines 38-49), for a single variable: byte-unit values must match
`\d+(k|M)?B` and convert to a power of two.  Were `size_string_to_int` to
return `None` here, Python would hit a TypeError at `variable_size & ...`;
under the pattern match that cannot happen, but the branch is modelled. -/
def checkVariable (v : Variable) : Except PyExc Unit :=
  if v.units = some "B" then
    if matchesSizePattern ['k', 'M'] v.value = false then
      .error (.exception ("Invalid " ++ v.name ++ " '" ++ v.value ++ "'"))
    else
      match size_string_to_int v.value with
      | .error e => .error e
      | .ok none => .error .typeError
      | .ok (some n) =>
        if n ≠ 0 ∧ n &&& (n - 1) = 0 then .ok ()
        else .error (.exception (v.name ++ " '" ++ v.value ++ "' is not a power of 2"))
  else .ok ()

/-- The `for variable in variables` validation loop of run_utils.py
`run_simulation` (lines 38-49). -/
def checkVariables : List Variable → Except PyExc Unit
  | [] => .ok ()
  | v :: vs =>
    match checkVariable v with
    | .error e => .error e
    | .ok () => checkVariables vs

/-- Benchmark selection in run_utils.py `run_simulation` (lines 16-31). -/
def benchOptions (benchmark benchmark_size : String) : Except PyExc (String × List String) :=
  if pyLower benchmark = "dummy" then
    .ok ("benchmarks/dummy/dummy", [""])
  else if pyLower benchmark = "susan" then
    .ok ("benchmarks/susan/susan",
      ["benchmarks/susan/input_" ++ benchmark_size ++
         ".pgm benchmarks/susan/output_" ++ benchmark_size ++ ".smoothing.pgm -s",
       "benchmarks/susan/input_" ++ benchmark_size ++
         ".pgm benchmarks/susan/output_" ++ benchmark_size ++ ".edges.pgm -e",
       "benchmarks/susan/input_" ++ benchmark_size ++
         ".pgm benchmarks/susan/output_" ++ benchmark_size ++ ".corners.pgm -c"])
  else if pyLower benchmark = "crc" then
    .ok ("benchmarks/CRC32/crc", ["benchmarks/adpcm/data/" ++ benchmark_size ++ ".pcm"])
  else .error (.exception ("Invalid benchmark '" ++ benchmark ++ "'"))

/-- Architecture selection in run_utils.py `run_simulation` (lines 33-36). -/
def archBinary (architecture binary : String) : Except PyExc String :=
  if pyUpper architecture = "ARM" then .ok (binary ++ ".arm")
  else if pyUpper architecture = "X86" then .ok binary
  else .error (.exception ("Invalid architecture '" ++ architecture ++ "'"))

/-- One gem5 command of run_utils.py `run_simulation` (lines 52-65). -/
def mkCommand (gem5_path architecture binary option_ : String) (vars : List Variable)
    (part : String) : List String :=
  [gem5_path ++ "/build/" ++ pyUpper architecture ++ "/gem5.opt",
   "--outdir=" ++ gem5_path ++ "/m5out",
   gem5_path ++ "/configs/example/se.py",
   "--cmd=" ++ binary,
   "--options=" ++ option_,
   "--cpu-type=TimingSimpleCPU",
   "--caches"]
  ++ vars.map (fun v => "--" ++ v.argument ++ "=" ++ v.value)
  ++ (if part = "b" then ["--l1i_size=16kB", "--l1d_size=16kB"] else [])

/-- The subprocess loop of run_utils.py `run_simulation` (lines 51-72):
`process.wait()` with no handler other than KeyboardInterrupt, so exit
statuses are read and discarded. -/
def waitAll (codes : Nat → Int) (i : Nat) : List (List String) → Except PyExc (List (List String))
  | [] => .ok []
  | c :: cs =>
    match popenWait (codes i) with
    | .error e => .error e
    | .ok _ =>
      match waitAll codes (i + 1) cs with
      | .error e => .error e
      | .ok rest => .ok (c :: rest)

/-- run_utils.py `run_simulation` (lines 9-72).  Returns the list of
simulator commands invoked; the variable checks run before any command is
built. -/
def run_simulation (codes : Nat → Int) (gem5_path benchmark_size : String)
    (architecture benchmark : String) (vars : List Variable) (part : String) :
    Except PyExc (List (List String)) :=
  match benchOptions benchmark benchmark_size with
  | .error e => .error e
  | .ok (binary0, options) =>
    match archBinary architecture binary0 with
    | .error e => .error e
    | .ok binary =>
      match checkVariables vars with
      | .error e => .error e
      | .ok () =>
        waitAll codes 0
          (options.map fun option_ => mkCommand gem5_path architecture binary option_ vars part)

end RunUtils

/-! ## Shared concrete helpers for the claim theorems -/

/-- An external world in which every subprocess exits with status 0. -/
def codes0 : Nat → Int := fun _ => 0

/-- An external world in which every subprocess exits with status 1. -/
def codes1 : Nat → Int := fun _ => 1

/-- Environment for the sweep witness: every subprocess exits 0 and
stats.txt always reads simInsts 2 / numCycles 4. -/
def envW : Aca.SimEnv :=
  ⟨fun _ _ _ _ _ => 0, fun _ _ _ _ => ["simInsts 2", "system.cpu.numCycles 4"]⟩

/-! ## Lemmas about the statistics-parsing loops -/

/-- A line starting with `system.cpu.numCycles` cannot also start with
`simInsts`. -/
theorem not_simInsts_of_numCycles (l : String)
    (h : pyStartsWith l "system.cpu.numCycles" = true) :
    pyStartsWith l "simInsts" = false := by
  by_contra hb
  rw [Bool.not_eq_false] at hb
  rw [pyStartsWith, List.isPrefixOf_iff_prefix] at h hb
  have hle : ("simInsts".data).length ≤ ("system.cpu.numCycles".data).length := by decide
  have hpp := List.prefix_of_prefix_length_le hb h hle
  rw [← List.isPrefixOf_iff_prefix] at hpp
  exact absurd hpp (by decide)

theorem Aca.cpiLoop_skip (l : String) (rest : List String) (ic : Option Int)
    (h1 : pyStartsWith l "simInsts" = false)
    (h2 : pyStartsWith l "system.cpu.numCycles" = false) :
    Aca.cpiLoop (l :: rest) ic = Aca.cpiLoop rest ic := by
  simp [Aca.cpiLoop, h1, h2]

theorem Aca.cpiLoop_simInsts (l : String) (rest : List String) (ic : Option Int) (n : Int)
    (h1 : pyStartsWith l "simInsts" = true) (h2 : intField l = .ok n) :
    Aca.cpiLoop (l :: rest) ic = Aca.cpiLoop rest (some n) := by
  simp [Aca.cpiLoop, h1, h2]

theorem Aca.cpiLoop_numCycles (l : String) (rest : List String) (n m : Int)
    (hc : pyStartsWith l "system.cpu.numCycles" = true)
    (hm : intField l = .ok m) (hn : n ≠ 0) :
    Aca.cpiLoop (l :: rest) (some n) = .ok ((m : Rat) / (n : Rat)) := by
  simp [Aca.cpiLoop, not_simInsts_of_numCycles l hc, hc, hm, hn]

theorem Aca.cpiLoop_numCycles_zero (l : String) (rest : List String) (m : Int)
    (hc : pyStartsWith l "system.cpu.numCycles" = true)
    (hm : intField l = .ok m) :
    Aca.cpiLoop (l :: rest) (some 0) = .error .zeroDivision := by
  simp [Aca.cpiLoop, not_simInsts_of_numCycles l hc, hc, hm]

theorem Aca.cpiLoop_numCycles_unbound (l : String) (rest : List String) (m : Int)
    (hc : pyStartsWith l "system.cpu.numCycles" = true)
    (hm : intField l = .ok m) :
    Aca.cpiLoop (l :: rest) none = .error (.unboundLocal "instruction_count") := by
  simp [Aca.cpiLoop, not_simInsts_of_numCycles l hc, hc, hm]

/-- Lines carrying neither label are skipped wholesale. -/
theorem Aca.cpiLoop_append_skip (pre xs : List String) (ic : Option Int)
    (h : ∀ l ∈ pre, pyStartsWith l "simInsts" = false ∧
      pyStartsWith l "system.cpu.numCycles" = false) :
    Aca.cpiLoop (pre ++ xs) ic = Aca.cpiLoop xs ic := by
  induction pre with
  | nil => rfl
  | cons l pre ih =>
    have hl := h l (by simp)
    rw [List.cons_append, Aca.cpiLoop_skip l _ ic hl.1 hl.2]
    exact ih fun x hx => h x (by simp [hx])

/-- A region with no `numCycles` line and only parseable `simInsts` lines
only moves the `instruction_count` state. -/
theorem Aca.cpiLoop_append_parse (pre : List String)
    (h : ∀ l ∈ pre, pyStartsWith l "system.cpu.numCycles" = false ∧
      (pyStartsWith l "simInsts" = true → ∃ k, intField l = .ok k)) :
    ∀ (xs : List String) (ic : Option Int),
      ∃ ic', Aca.cpiLoop (pre ++ xs) ic = Aca.cpiLoop xs ic' := by
  induction pre with
  | nil => exact fun xs ic => ⟨ic, rfl⟩
  | cons l pre ih =>
    intro xs ic
    have hl := h l (by simp)
    by_cases hs : pyStartsWith l "simInsts" = true
    · obtain ⟨k, hk⟩ := hl.2 hs
      rw [List.cons_append, Aca.cpiLoop_simInsts l _ ic k hs hk]
      exact ih (fun x hx => h x (by simp [hx])) xs (some k)
    · rw [List.cons_append,
        Aca.cpiLoop_skip l _ ic (by simpa using hs) hl.1]
      exact ih (fun x hx => h x (by simp [hx])) xs ic

theorem Aca.cpi_eq_loop (lines : List String) (h : lines ≠ []) :
    Aca.cpi lines = Aca.cpiLoop lines none := by
  cases lines with
  | nil => exact absurd rfl h
  | cons a as => rfl

theorem RunUtils.getStatLoop_cpi_skip (l : String) (rest : List String) (ic cc : Option Int)
    (h1 : pyStartsWith l "simInsts" = false)
    (h2 : pyStartsWith l "system.cpu.numCycles" = false) :
    RunUtils.getStatLoop "Cycles Per Instruction" (l :: rest) ic cc =
      RunUtils.getStatLoop "Cycles Per Instruction" rest ic cc := by
  simp [RunUtils.getStatLoop, h1, h2]

theorem RunUtils.getStatLoop_cpi_simInsts (l : String) (rest : List String) (ic cc : Option Int)
    (n : Int) (h1 : pyStartsWith l "simInsts" = true) (h2 : intField l = .ok n) :
    RunUtils.getStatLoop "Cycles Per Instruction" (l :: rest) ic cc =
      RunUtils.getStatLoop "Cycles Per Instruction" rest (some n) cc := by
  simp [RunUtils.getStatLoop, h1, h2]

theorem RunUtils.getStatLoop_cpi_numCycles (l : String) (rest : List String) (cc : Option Int)
    (n m : Int) (hc : pyStartsWith l "system.cpu.numCycles" = true)
    (hm : intField l = .ok m) (hn : n ≠ 0) :
    RunUtils.getStatLoop "Cycles Per Instruction" (l :: rest) (some n) cc =
      .ok (some ((m : Rat) / (n : Rat))) := by
  simp [RunUtils.getStatLoop, not_simInsts_of_numCycles l hc, hc, hm, hn]

theorem RunUtils.getStatLoop_cpi_numCycles_zero (l : String) (rest : List String) (cc : Option Int)
    (m : Int) (hc : pyStartsWith l "system.cpu.numCycles" = true)
    (hm : intField l = .ok m) :
    RunUtils.getStatLoop "Cycles Per Instruction" (l :: rest) (some 0) cc =
      .error .zeroDivision := by
  simp [RunUtils.getStatLoop, not_simInsts_of_numCycles l hc, hc, hm]

theorem RunUtils.getStatLoop_cpi_numCycles_unbound (l : String) (rest : List String)
    (cc : Option Int) (m : Int) (hc : pyStartsWith l "system.cpu.numCycles" = true)
    (hm : intField l = .ok m) :
    RunUtils.getStatLoop "Cycles Per Instruction" (l :: rest) none cc =
      .error (.unboundLocal "instruction_count") := by
  simp [RunUtils.getStatLoop, not_simInsts_of_numCycles l hc, hc, hm]

theorem RunUtils.getStatLoop_cpi_append_skip (pre xs : List String) (ic cc : Option Int)
    (h : ∀ l ∈ pre, pyStartsWith l "simInsts" = false ∧
      pyStartsWith l "system.cpu.numCycles" = false) :
    RunUtils.getStatLoop "Cycles Per Instruction" (pre ++ xs) ic cc =
      RunUtils.getStatLoop "Cycles Per Instruction" xs ic cc := by
  induction pre with
  | nil => rfl
  | cons l pre ih =>
    have hl := h l (by simp)
    rw [List.cons_append, RunUtils.getStatLoop_cpi_skip l _ ic cc hl.1 hl.2]
    exact ih fun x hx => h x (by simp [hx])

theorem RunUtils.getStatLoop_cpi_append_parse (pre : List String)
    (h : ∀ l ∈ pre, pyStartsWith l "system.cpu.numCycles" = false ∧
      (pyStartsWith l "simInsts" = true → ∃ k, intField l = .ok k)) :
    ∀ (xs : List String) (ic cc : Option Int),
      ∃ ic', RunUtils.getStatLoop "Cycles Per Instruction" (pre ++ xs) ic cc =
        RunUtils.getStatLoop "Cycles Per Instruction" xs ic' cc := by
  induction pre with
  | nil => exact fun xs ic cc => ⟨ic, rfl⟩
  | cons l pre ih =>
    intro xs ic cc
    have hl := h l (by simp)
    by_cases hs : pyStartsWith l "simInsts" = true
    · obtain ⟨k, hk⟩ := hl.2 hs
      rw [List.cons_append, RunUtils.getStatLoop_cpi_simInsts l _ ic cc k hs hk]
      exact ih (fun x hx => h x (by simp [hx])) xs (some k) cc
    · rw [List.cons_append,
        RunUtils.getStatLoop_cpi_skip l _ ic cc (by simpa using hs) hl.1]
      exact ih (fun x hx => h x (by simp [hx])) xs ic cc

theorem RunUtils.get_statistic_eq_loop (statistic : String) (lines : List String)
    (h : lines ≠ []) :
    RunUtils.get_statistic statistic lines =
      RunUtils.getStatLoop statistic lines none none := by
  cases lines with
  | nil => exact absurd rfl h
  | cons a as => rfl

theorem append_cons_ne_nil {α : Type} (pre : List α) (x : α) (xs : List α) :
    pre ++ x :: xs ≠ [] := by
  cases pre <;> simp

theorem pyIsDigit_mk (l : List Char) :
    pyIsDigit (String.mk l) = (!l.isEmpty && l.all Char.isDigit) := rfl

/-- A string of digits followed by a final B matches the size pattern for
any allowed middle letters. -/
theorem matches_of_digits_B (allowed : List Char) (s : String)
    (hd : pyIsDigit (pySliceMinus1 s) = true)
    (hB : pyEndsWith s "B" = true) :
    matchesSizePattern allowed s = true := by
  unfold pyEndsWith at hB
  unfold pySliceMinus1 at hd
  unfold matchesSizePattern
  match hrev : s.data.reverse with
  | [] =>
    rw [hrev] at hB
    exact absurd hB (by decide)
  | c :: t =>
    rw [hrev] at hB
    have hcB : c = 'B' := by
      have hpf : (['B'] : List Char).isPrefixOf (c :: t) = true := hB
      simp [List.isPrefixOf] at hpf
      exact hpf.symm
    subst hcB
    have hsd : s.data = t.reverse ++ ['B'] := by
      have hx := congrArg List.reverse hrev
      simpa using hx
    rw [hsd, List.dropLast_concat, pyIsDigit_mk] at hd
    simp only [Bool.and_eq_true, List.all_reverse] at hd
    have ht : t ≠ [] := by
      intro hnil
      rw [hnil] at hd
      exact absurd hd.1 (by decide)
    have hie : t.isEmpty = false := by
      cases t with
      | nil => exact absurd rfl ht
      | cons a b => rfl
    simp [hie, hd.2]

/-! ## Lemmas about run_simulation's validation loop -/

theorem RunUtils.checkVariables_ok_mem (vars : List RunUtils.Variable)
    (h : RunUtils.checkVariables vars = .ok ()) :
    ∀ v ∈ vars, RunUtils.checkVariable v = .ok () := by
  induction vars with
  | nil => intro v hv; cases hv
  | cons w ws ih =>
    intro v hv
    unfold RunUtils.checkVariables at h
    cases hcw : RunUtils.checkVariable w with
    | error e => rw [hcw] at h; exact Except.noConfusion h
    | ok u =>
      cases u
      rw [hcw] at h
      rcases List.mem_cons.mp hv with h1 | h2
      · subst h1; exact hcw
      · exact ih h v h2

theorem RunUtils.checkVariables_error_of_mem (vars : List RunUtils.Variable)
    (v : RunUtils.Variable) (hv : v ∈ vars) (e : PyExc)
    (hce : RunUtils.checkVariable v = .error e) :
    exceptIsOk (RunUtils.checkVariables vars) = false := by
  induction vars with
  | nil => cases hv
  | cons w ws ih =>
    unfold RunUtils.checkVariables
    rcases List.mem_cons.mp hv with h1 | h2
    · subst h1
      rw [hce]
      rfl
    · cases hcw : RunUtils.checkVariable w with
      | error e2 => rfl
      | ok u => cases u; exact ih h2

theorem RunUtils.checkVariable_ok_byte (v : RunUtils.Variable)
    (hu : v.units = some "B") (hok : RunUtils.checkVariable v = .ok ()) :
    matchesSizePattern ['k', 'M'] v.value = true ∧
    ∃ n, RunUtils.size_string_to_int v.value = .ok (some n) ∧ n ≠ 0 ∧ n &&& (n - 1) = 0 := by
  unfold RunUtils.checkVariable at hok
  rw [if_pos hu] at hok
  by_cases hm : matchesSizePattern ['k', 'M'] v.value = false
  · rw [if_pos hm] at hok; exact Except.noConfusion hok
  · rw [if_neg hm] at hok
    refine ⟨by simpa using hm, ?_⟩
    cases hs : RunUtils.size_string_to_int v.value with
    | error e => rw [hs] at hok; exact Except.noConfusion hok
    | ok o =>
      cases o with
      | none => rw [hs] at hok; exact Except.noConfusion hok
      | some n =>
        rw [hs] at hok
        by_cases hp : n ≠ 0 ∧ n &&& (n - 1) = 0
        · exact ⟨n, rfl, hp.1, hp.2⟩
        · simp [hp] at hok

theorem RunUtils.checkVariable_bad_pattern (v : RunUtils.Variable)
    (hu : v.units = some "B") (hm : matchesSizePattern ['k', 'M'] v.value = false) :
    RunUtils.checkVariable v =
      .error (.exception ("Invalid " ++ v.name ++ " '" ++ v.value ++ "'")) := by
  unfold RunUtils.checkVariable
  rw [if_pos hu, if_pos hm]

theorem RunUtils.checkVariable_not_pow2 (v : RunUtils.Variable) (n : Nat)
    (hu : v.units = some "B") (hm : matchesSizePattern ['k', 'M'] v.value = true)
    (hn : RunUtils.size_string_to_int v.value = .ok (some n))
    (hp : ¬(n ≠ 0 ∧ n &&& (n - 1) = 0)) :
    RunUtils.checkVariable v =
      .error (.exception (v.name ++ " '" ++ v.value ++ "' is not a power of 2")) := by
  unfold RunUtils.checkVariable
  rw [if_pos hu, if_neg (by simp [hm]), hn]
  exact if_neg hp

theorem RunUtils.run_simulation_checks_ok (codes : Nat → Int)
    (gp bs arch bench : String) (vars : List RunUtils.Variable) (part : String)
    (cmds : List (List String))
    (h : RunUtils.run_simulation codes gp bs arch bench vars part = .ok cmds) :
    RunUtils.checkVariables vars = .ok () := by
  unfold RunUtils.run_simulation at h
  split at h
  · exact Except.noConfusion h
  · split at h
    · exact Except.noConfusion h
    · split at h
      · exact Except.noConfusion h
      · rename_i heq
        exact heq

theorem RunUtils.run_simulation_checks_error (codes : Nat → Int)
    (gp bs arch bench : String) (vars : List RunUtils.Variable) (part : String)
    (hcv : exceptIsOk (RunUtils.checkVariables vars) = false) :
    exceptIsOk (RunUtils.run_simulation codes gp bs arch bench vars part) = false := by
  unfold RunUtils.run_simulation
  split
  · rfl
  · split
    · rfl
    · split
      · rfl
      · rename_i heq
        rw [heq] at hcv
        exact absurd hcv (by decide)

/-! ## Lemmas about the aca.py sweep loop -/

theorem Aca.runCommands_ok (codes : Nat → Int) (i : Nat) (cs : List (List String)) :
    Aca.runCommands codes i cs = .ok cs := by
  induction cs generalizing i with
  | nil => rfl
  | cons c cs ih =>
    unfold Aca.runCommands
    rw [ih (i + 1)]
    rfl

theorem Aca.benchArgs_length (bench bs : String) (p : String × List String)
    (h : Aca.benchArgs bench bs = .ok p) :
    p.2.length = (if pyLower bench = "susan" then 3 else 1) := by
  unfold Aca.benchArgs at h
  by_cases h1 : pyLower bench = "susan"
  · rw [if_pos h1] at h
    cases h
    rw [if_pos h1]
    rfl
  · by_cases h2 : pyLower bench = "crc"
    · rw [if_neg h1, if_pos h2] at h
      cases h
      rw [if_neg h1]
      rfl
    · rw [if_neg h1, if_neg h2] at h
      exact Except.noConfusion h

/-- A successful run_benchmark launches one subprocess per benchmark
argument: three for susan, one otherwise (crc). -/
theorem Aca.run_benchmark_ok_length (codes : Nat → Int)
    (arch bench ic dc bs : String) (cmds : List (List String))
    (h : Aca.run_benchmark codes arch bench ic dc bs = .ok cmds) :
    cmds.length = (if pyLower bench = "susan" then 3 else 1) := by
  unfold Aca.run_benchmark at h
  split at h
  · exact Except.noConfusion h
  · rename_i p heqBench
    split at h
    · exact Except.noConfusion h
    · split at h
      · exact Except.noConfusion h
      · split at h
        · exact Except.noConfusion h
        · rw [Aca.runCommands_ok] at h
          cases h
          rw [List.length_map]
          exact Aca.benchArgs_length bench bs _ heqBench

theorem Aca.runPoint_run_benchmark_ok (env : Aca.SimEnv) (bsize a b i d : String) (r : Aca.Row)
    (h : Aca.runPoint env bsize a b i d = .ok r) :
    ∃ cmds, Aca.run_benchmark (env.codes a b i d) a b i d bsize = .ok cmds := by
  unfold Aca.runPoint at h
  split at h
  · exact Except.noConfusion h
  · rename_i cmds heq
    exact ⟨cmds, heq⟩

theorem Aca.sweepDcs_ok (env : Aca.SimEnv) (bsize a b i : String) (dcs : List String)
    (f : String → String → String → String → Aca.Row)
    (h : ∀ d ∈ dcs, Aca.runPoint env bsize a b i d = .ok (f a b i d)) :
    Aca.sweepDcs env bsize a b i dcs = .ok (dcs.map fun d => f a b i d) := by
  induction dcs with
  | nil => rfl
  | cons d ds ih =>
    unfold Aca.sweepDcs
    rw [h d (by simp), ih fun x hx => h x (by simp [hx])]
    rfl

theorem Aca.sweepIcs_ok (env : Aca.SimEnv) (bsize a b : String) (ics dcs : List String)
    (f : String → String → String → String → Aca.Row)
    (h : ∀ i ∈ ics, ∀ d ∈ dcs, Aca.runPoint env bsize a b i d = .ok (f a b i d)) :
    Aca.sweepIcs env bsize a b ics dcs =
      .ok (ics.flatMap fun i => dcs.map fun d => f a b i d) := by
  induction ics with
  | nil => rfl
  | cons i is_ ih =>
    unfold Aca.sweepIcs
    rw [Aca.sweepDcs_ok env bsize a b i dcs f (h i (by simp)),
      ih fun x hx => h x (by simp [hx])]
    rfl

theorem Aca.sweepBenchs_ok (env : Aca.SimEnv) (bsize a : String) (benchs ics dcs : List String)
    (f : String → String → String → String → Aca.Row)
    (h : ∀ b ∈ benchs, ∀ i ∈ ics, ∀ d ∈ dcs, Aca.runPoint env bsize a b i d = .ok (f a b i d)) :
    Aca.sweepBenchs env bsize a benchs ics dcs =
      .ok (benchs.flatMap fun b => ics.flatMap fun i => dcs.map fun d => f a b i d) := by
  induction benchs with
  | nil => rfl
  | cons b bs ih =>
    unfold Aca.sweepBenchs
    rw [Aca.sweepIcs_ok env bsize a b ics dcs f (h b (by simp)),
      ih fun x hx => h x (by simp [hx])]
    rfl

theorem Aca.sweepLoop_ok (env : Aca.SimEnv) (bsize : String)
    (archs benchs ics dcs : List String)
    (f : String → String → String → String → Aca.Row)
    (h : ∀ a ∈ archs, ∀ b ∈ benchs, ∀ i ∈ ics, ∀ d ∈ dcs,
      Aca.runPoint env bsize a b i d = .ok (f a b i d)) :
    Aca.sweepLoop env bsize archs benchs ics dcs =
      .ok (archs.flatMap fun a => benchs.flatMap fun b => ics.flatMap fun i =>
        dcs.map fun d => f a b i d) := by
  induction archs with
  | nil => rfl
  | cons a as_ ih =>
    unfold Aca.sweepLoop
    rw [Aca.sweepBenchs_ok env bsize a benchs ics dcs f (h a (by simp)),
      ih fun x hx => h x (by simp [hx])]
    rfl

theorem length_bind_const {α β : Type} (l : List α) (f : α → List β) (k : Nat)
    (h : ∀ a ∈ l, (f a).length = k) : (l.flatMap f).length = l.length * k := by
  induction l with
  | nil => simp
  | cons x xs ih =>
    simp only [List.flatMap_cons, List.length_append, List.length_cons]
    rw [h x (by simp), ih fun a ha => h a (by simp [ha])]
    ring

/-! ## Claim theorems -/

/-- C1: the claim says both `size_string_to_int` functions turn
`<digits>kB` into digits×1024 (16kB ↦ 16384), `<digits>MB` into
digits×1024×1024, and `<digits>B` into the digits.  run_utils.py does
exactly that, but aca.py multiplies by the decimal 1000 and 1000×1000, so
`16kB` yields 16000 — at odds with the spec's own example, with the sibling
implementation in run_utils.py, and with gem5's binary reading of `kB` that
the value is supposed to report in the CSV's byte column. -/
theorem c1_size_conversion_divergence :
    RunUtils.size_string_to_int "16kB" = .ok (some 16384) ∧
    RunUtils.size_string_to_int "16MB" = .ok (some 16777216) ∧
    RunUtils.size_string_to_int "16B" = .ok (some 16) ∧
    Aca.size_string_to_int "16kB" = .ok (some 16000) ∧
    Aca.size_string_to_int "16MB" = .ok (some 16000000) ∧
    Aca.size_string_to_int "16B" = .ok (some 16) := by
  refine ⟨?_, ?_, ?_, ?_, ?_, ?_⟩ <;> rfl

/-- C2: a simulator subprocess exiting with status 1 raises nothing:
`Popen.wait` hands back the return code (`waitHandled`'s
CalledProcessError arm is dead code), so both `run_benchmark` and
`run_simulation` complete normally, with their commands invoked, instead of
aborting the sweep. -/
theorem c2_nonzero_exit_ignored :
    Aca.waitHandled 1 = .ok 1 ∧
    (Aca.run_benchmark codes1 "X86" "crc" "16kB" "16kB" "small").map List.length = .ok 1 ∧
    (RunUtils.run_simulation codes1 "gem5" "small" "X86" "crc" [] "a").map List.length = .ok 1 := by
  refine ⟨rfl, rfl, rfl⟩

/-- C3: on a non-empty stats.txt with none of the required labelled lines,
run_utils.py's `get_statistic` returns Python `None` for both metrics — its
post-loop raise branches compare `statistic` against `"cpi"` and
`"overall_dcache_miss_rate"`, names its callers never pass — while aca.py's
`cpi` does raise (an UnboundLocalError at the dead post-loop check). -/
theorem c3_missing_lines_return_none :
    RunUtils.get_statistic "Overall DCache Miss Rate" ["foo 1"] = .ok none ∧
    RunUtils.get_statistic "Cycles Per Instruction" ["foo 1"] = .ok none ∧
    Aca.cpi ["foo 1"] = .error (.unboundLocal "instruction_count") := by
  refine ⟨rfl, rfl, rfl⟩

/-- C6: on an empty (zero-line) stats.txt, both statistics parsers raise
their labelled "empty stats.txt" exception, for each requested metric. -/
theorem c6_empty_stats_file_raises :
    Aca.cpi [] = .error (.exception "Empty stats.txt") ∧
    RunUtils.get_statistic "Cycles Per Instruction" [] =
      .error (.exception "Empty stats.txt, try using the --verbose flag to check simulation output") ∧
    RunUtils.get_statistic "Overall DCache Miss Rate" [] =
      .error (.exception "Empty stats.txt, try using the --verbose flag to check simulation output") := by
  refine ⟨rfl, rfl, rfl⟩

/-- C4: for a stats file whose first `system.cpu.numCycles` line carries the
integer M and is preceded by a `simInsts` line, the nearest such preceding
line carrying the (nonzero, per the division carved out in C8) integer N —
with the lines in between carrying neither label and earlier `simInsts`
lines parseable — both CPI parsers return M divided by N. -/
theorem c4_cpi_ratio (pre mid rest : List String) (sLine cLine : String) (N M : Int)
    (hpre : ∀ l ∈ pre, pyStartsWith l "system.cpu.numCycles" = false ∧
      (pyStartsWith l "simInsts" = true → ∃ k, intField l = .ok k))
    (hs : pyStartsWith sLine "simInsts" = true)
    (hsv : intField sLine = .ok N)
    (hmid : ∀ l ∈ mid, pyStartsWith l "simInsts" = false ∧
      pyStartsWith l "system.cpu.numCycles" = false)
    (hc : pyStartsWith cLine "system.cpu.numCycles" = true)
    (hcv : intField cLine = .ok M)
    (hN : N ≠ 0) :
    Aca.cpi (pre ++ sLine :: (mid ++ cLine :: rest)) = .ok ((M : Rat) / (N : Rat)) ∧
    RunUtils.get_statistic "Cycles Per Instruction" (pre ++ sLine :: (mid ++ cLine :: rest)) =
      .ok (some ((M : Rat) / (N : Rat))) := by
  constructor
  · rw [Aca.cpi_eq_loop _ (append_cons_ne_nil pre sLine _)]
    obtain ⟨ic', hloop⟩ := Aca.cpiLoop_append_parse pre hpre (sLine :: (mid ++ cLine :: rest)) none
    rw [hloop, Aca.cpiLoop_simInsts sLine _ ic' N hs hsv,
      Aca.cpiLoop_append_skip mid _ (some N) hmid,
      Aca.cpiLoop_numCycles cLine rest N M hc hcv hN]
  · rw [RunUtils.get_statistic_eq_loop _ _ (append_cons_ne_nil pre sLine _)]
    obtain ⟨ic', hloop⟩ :=
      RunUtils.getStatLoop_cpi_append_parse pre hpre (sLine :: (mid ++ cLine :: rest)) none none
    rw [hloop, RunUtils.getStatLoop_cpi_simInsts sLine _ ic' none N hs hsv,
      RunUtils.getStatLoop_cpi_append_skip mid _ (some N) none hmid,
      RunUtils.getStatLoop_cpi_numCycles cLine rest none N M hc hcv hN]

/-- C4 witness: a two-line stats file with simInsts 2 and numCycles 5 gives
CPI 5/2 in both parsers. -/
theorem c4_cpi_ratio_witness :
    Aca.cpi ["simInsts 2", "system.cpu.numCycles 5"] =
      .ok (((5 : Int) : Rat) / ((2 : Int) : Rat)) ∧
    RunUtils.get_statistic "Cycles Per Instruction" ["simInsts 2", "system.cpu.numCycles 5"] =
      .ok (some (((5 : Int) : Rat) / ((2 : Int) : Rat))) :=
  c4_cpi_ratio [] [] [] "simInsts 2" "system.cpu.numCycles 5" 2 5
    (by simp) (by decide) (by decide) (by simp) (by decide) (by decide) (by decide)

/-- C8: evaluating the CPI return expression fails with an unbound-variable
error when the first `system.cpu.numCycles` line has no preceding `simInsts`
line, and with a division-by-zero error when the governing `simInsts` value
is zero — in both parsers, and never with a labelled Exception. -/
theorem c8_unbound_or_zero_division :
    (∀ (pre rest : List String) (cLine : String) (M : Int),
      (∀ l ∈ pre, pyStartsWith l "simInsts" = false ∧
        pyStartsWith l "system.cpu.numCycles" = false) →
      pyStartsWith cLine "system.cpu.numCycles" = true →
      intField cLine = .ok M →
      Aca.cpi (pre ++ cLine :: rest) = .error (.unboundLocal "instruction_count") ∧
      RunUtils.get_statistic "Cycles Per Instruction" (pre ++ cLine :: rest) =
        .error (.unboundLocal "instruction_count")) ∧
    (∀ (pre mid rest : List String) (sLine cLine : String) (M : Int),
      (∀ l ∈ pre, pyStartsWith l "system.cpu.numCycles" = false ∧
        (pyStartsWith l "simInsts" = true → ∃ k, intField l = .ok k)) →
      pyStartsWith sLine "simInsts" = true →
      intField sLine = .ok 0 →
      (∀ l ∈ mid, pyStartsWith l "simInsts" = false ∧
        pyStartsWith l "system.cpu.numCycles" = false) →
      pyStartsWith cLine "system.cpu.numCycles" = true →
      intField cLine = .ok M →
      Aca.cpi (pre ++ sLine :: (mid ++ cLine :: rest)) = .error .zeroDivision ∧
      RunUtils.get_statistic "Cycles Per Instruction" (pre ++ sLine :: (mid ++ cLine :: rest)) =
        .error .zeroDivision) := by
  constructor
  · intro pre rest cLine M hpre hc hM
    constructor
    · rw [Aca.cpi_eq_loop _ (append_cons_ne_nil pre cLine _),
        Aca.cpiLoop_append_skip pre _ none hpre,
        Aca.cpiLoop_numCycles_unbound cLine rest M hc hM]
    · rw [RunUtils.get_statistic_eq_loop _ _ (append_cons_ne_nil pre cLine _),
        RunUtils.getStatLoop_cpi_append_skip pre _ none none hpre,
        RunUtils.getStatLoop_cpi_numCycles_unbound cLine rest none M hc hM]
  · intro pre mid rest sLine cLine M hpre hs hs0 hmid hc hM
    constructor
    · rw [Aca.cpi_eq_loop _ (append_cons_ne_nil pre sLine _)]
      obtain ⟨ic', hloop⟩ :=
        Aca.cpiLoop_append_parse pre hpre (sLine :: (mid ++ cLine :: rest)) none
      rw [hloop, Aca.cpiLoop_simInsts sLine _ ic' 0 hs hs0,
        Aca.cpiLoop_append_skip mid _ (some 0) hmid,
        Aca.cpiLoop_numCycles_zero cLine rest M hc hM]
    · rw [RunUtils.get_statistic_eq_loop _ _ (append_cons_ne_nil pre sLine _)]
      obtain ⟨ic', hloop⟩ :=
        RunUtils.getStatLoop_cpi_append_parse pre hpre (sLine :: (mid ++ cLine :: rest)) none none
      rw [hloop, RunUtils.getStatLoop_cpi_simInsts sLine _ ic' none 0 hs hs0,
        RunUtils.getStatLoop_cpi_append_skip mid _ (some 0) none hmid,
        RunUtils.getStatLoop_cpi_numCycles_zero cLine rest none M hc hM]

/-- C8 witness: a numCycles line with no preceding simInsts gives the
unbound-variable error; a preceding simInsts of zero gives division by
zero. -/
theorem c8_unbound_or_zero_division_witness :
    (Aca.cpi ["system.cpu.numCycles 4"] = .error (.unboundLocal "instruction_count") ∧
      RunUtils.get_statistic "Cycles Per Instruction" ["system.cpu.numCycles 4"] =
        .error (.unboundLocal "instruction_count")) ∧
    (Aca.cpi ["simInsts 0", "system.cpu.numCycles 4"] = .error .zeroDivision ∧
      RunUtils.get_statistic "Cycles Per Instruction" ["simInsts 0", "system.cpu.numCycles 4"] =
        .error .zeroDivision) :=
  ⟨c8_unbound_or_zero_division.1 [] [] "system.cpu.numCycles 4" 4
      (by simp) (by decide) (by decide),
    c8_unbound_or_zero_division.2 [] [] [] "simInsts 0" "system.cpu.numCycles 4" 4
      (by simp) (by decide) (by decide) (by simp) (by decide) (by decide)⟩

/-- C10: run_utils.py's run_simulation raises for every byte-unit variable
whose converted byte count is not a power of two, even when its value
matches the size pattern; conversely, whenever the simulator commands are
reached, every byte-unit variable converted to a nonzero power of two. -/
theorem c10_power_of_two :
    (∀ (codes : Nat → Int) (gp bs arch bench : String) (vars : List RunUtils.Variable)
        (part : String) (v : RunUtils.Variable) (n : Nat),
      v ∈ vars → v.units = some "B" →
      matchesSizePattern ['k', 'M'] v.value = true →
      RunUtils.size_string_to_int v.value = .ok (some n) →
      ¬(n ≠ 0 ∧ n &&& (n - 1) = 0) →
      exceptIsOk (RunUtils.run_simulation codes gp bs arch bench vars part) = false) ∧
    (∀ (codes : Nat → Int) (gp bs arch bench : String) (vars : List RunUtils.Variable)
        (part : String) (cmds : List (List String)) (v : RunUtils.Variable),
      RunUtils.run_simulation codes gp bs arch bench vars part = .ok cmds →
      v ∈ vars → v.units = some "B" →
      matchesSizePattern ['k', 'M'] v.value = true ∧
      ∃ n, RunUtils.size_string_to_int v.value = .ok (some n) ∧ n ≠ 0 ∧ n &&& (n - 1) = 0) := by
  constructor
  · intro codes gp bs arch bench vars part v n hv hu hm hn hp
    exact RunUtils.run_simulation_checks_error codes gp bs arch bench vars part
      (RunUtils.checkVariables_error_of_mem vars v hv _
        (RunUtils.checkVariable_not_pow2 v n hu hm hn hp))
  · intro codes gp bs arch bench vars part cmds v hrs hv hu
    exact RunUtils.checkVariable_ok_byte v hu
      (RunUtils.checkVariables_ok_mem vars
        (RunUtils.run_simulation_checks_ok codes gp bs arch bench vars part cmds hrs) v hv)

/-- C10 witness: "3kB" matches the pattern but converts to 3072, which is
not a power of two, so the run aborts before any invocation. -/
theorem c10_power_of_two_witness :
    exceptIsOk (RunUtils.run_simulation codes0 "gem5" "small" "X86" "crc"
      [⟨"3kB", "l1d_size", "DCache Size", some "B"⟩] "a") = false :=
  c10_power_of_two.1 codes0 "gem5" "small" "X86" "crc"
    [⟨"3kB", "l1d_size", "DCache Size", some "B"⟩] "a"
    ⟨"3kB", "l1d_size", "DCache Size", some "B"⟩ 3072
    (by simp) rfl (by decide) (by decide) (by decide)

/-- C7 (amended): aca.py raises, before building any command, for every
cache-size string whose UPPER-cased form fails `\d+(K|M)?B` (the source
checks the upper-cased string, so lowercase suffixes such as "16kb" pass);
run_utils.py raises for every byte-unit variable whose raw value fails its
case-sensitive `\d+(k|M)?B`. -/
theorem c7_size_check_raises :
    (∀ (codes : Nat → Int) (architecture benchmark icache_size dcache_size benchmark_size : String),
      (matchesSizePattern ['K', 'M'] (pyUpper icache_size) = false ∨
        matchesSizePattern ['K', 'M'] (pyUpper dcache_size) = false) →
      exceptIsOk (Aca.run_benchmark codes architecture benchmark icache_size dcache_size
        benchmark_size) = false) ∧
    (∀ (codes : Nat → Int) (gp bs arch bench : String) (vars : List RunUtils.Variable)
        (part : String) (v : RunUtils.Variable),
      v ∈ vars → v.units = some "B" →
      matchesSizePattern ['k', 'M'] v.value = false →
      exceptIsOk (RunUtils.run_simulation codes gp bs arch bench vars part) = false) := by
  constructor
  · intro codes arch bench ic dc bs h
    unfold Aca.run_benchmark
    split
    · rfl
    · split
      · rfl
      · by_cases hic : matchesSizePattern ['K', 'M'] (pyUpper ic) = false
        · rw [if_pos hic]
          rfl
        · rcases h with h | h
          · exact absurd h hic
          · rw [if_neg hic, if_pos h]
            rfl
  · intro codes gp bs arch bench vars part v hv hu hm
    exact RunUtils.run_simulation_checks_error codes gp bs arch bench vars part
      (RunUtils.checkVariables_error_of_mem vars v hv _
        (RunUtils.checkVariable_bad_pattern v hu hm))

/-- C7 witness: "16GB" fails aca.py's upper-cased pattern, so run_benchmark
raises; "16KB" fails run_utils.py's case-sensitive pattern, so
run_simulation raises. -/
theorem c7_size_check_raises_witness :
    exceptIsOk (Aca.run_benchmark codes0 "X86" "crc" "16GB" "128B" "small") = false ∧
    exceptIsOk (RunUtils.run_simulation codes0 "gem5" "small" "X86" "crc"
      [⟨"16KB", "l1i_size", "ICache Size", some "B"⟩] "a") = false :=
  ⟨c7_size_check_raises.1 codes0 "X86" "crc" "16GB" "128B" "small" (Or.inl (by decide)),
   c7_size_check_raises.2 codes0 "gem5" "small" "X86" "crc"
     [⟨"16KB", "l1i_size", "ICache Size", some "B"⟩] "a"
     ⟨"16KB", "l1i_size", "ICache Size", some "B"⟩ (by simp) rfl (by decide)⟩

/-- C9: for malformed size strings (strings rejected by the size pattern)
whose text minus the last two characters is all digits but whose suffix is
neither `kB` nor `MB` — such as "16GB" — both `size_string_to_int`
functions fall through their inner if/elif and return Python `None`
(`Option.none`) instead of reaching the ValueError branch. -/
theorem c9_fallthrough_returns_none (s : String)
    (hmal : matchesSizePattern ['k', 'K', 'M'] s = false)
    (hdig : pyIsDigit (pySliceMinus2 s) = true)
    (hkB : pyEndsWith s "kB" = false)
    (hMB : pyEndsWith s "MB" = false) :
    Aca.size_string_to_int s = .ok none ∧
    RunUtils.size_string_to_int s = .ok none := by
  have hfirst : (pyIsDigit (pySliceMinus1 s) && pyEndsWith s "B") = false := by
    by_contra hb
    rw [Bool.not_eq_false, Bool.and_eq_true] at hb
    exact absurd (matches_of_digits_B ['k', 'K', 'M'] s hb.1 hb.2) (by simp [hmal])
  constructor
  · unfold Aca.size_string_to_int
    simp [hfirst, hdig, hkB, hMB]
  · unfold RunUtils.size_string_to_int
    simp [hfirst, hdig, hkB, hMB]

/-- C9 witness: "16GB" is malformed, has an all-digit prefix before the
last two characters and a suffix other than kB/MB, and both converters
return None on it. -/
theorem c9_fallthrough_returns_none_witness :
    Aca.size_string_to_int "16GB" = .ok none ∧
    RunUtils.size_string_to_int "16GB" = .ok none :=
  c9_fallthrough_returns_none "16GB" (by decide) (by decide) (by decide) (by decide)

/-- C5 (amended): when every point of the sweep succeeds, the aca.py sweep
loop appends exactly one CSV row per point of the full Cartesian product
architectures × benchmarks × icache sizes × dcache sizes, in nested order
with architecture outermost and data-cache size innermost; each point
invokes the simulator once per benchmark workload option — three
subprocesses for susan, one otherwise — not once per point. -/
theorem c5_sweep_cartesian (env : Aca.SimEnv) (benchmark_size : String)
    (archs benchs ics dcs : List String)
    (f : String → String → String → String → Aca.Row)
    (h : ∀ a ∈ archs, ∀ b ∈ benchs, ∀ i ∈ ics, ∀ d ∈ dcs,
      Aca.runPoint env benchmark_size a b i d = .ok (f a b i d)) :
    Aca.sweepLoop env benchmark_size archs benchs ics dcs =
      .ok (archs.flatMap fun a => benchs.flatMap fun b => ics.flatMap fun i =>
        dcs.map fun d => f a b i d) ∧
    (archs.flatMap fun a => benchs.flatMap fun b => ics.flatMap fun i =>
      dcs.map fun d => f a b i d).length =
      archs.length * benchs.length * ics.length * dcs.length ∧
    (∀ (codes : Nat → Int) (a b i d bs : String) (cmds : List (List String)),
      Aca.run_benchmark codes a b i d bs = .ok cmds →
      cmds.length = (if pyLower b = "susan" then 3 else 1)) := by
  refine ⟨Aca.sweepLoop_ok env benchmark_size archs benchs ics dcs f h, ?_, ?_⟩
  · have hA : ∀ a ∈ archs,
        ((benchs.flatMap fun b => ics.flatMap fun i => dcs.map fun d => f a b i d)).length =
          benchs.length * (ics.length * dcs.length) := by
      intro a ha
      have hB : ∀ b ∈ benchs,
          ((ics.flatMap fun i => dcs.map fun d => f a b i d)).length =
            ics.length * dcs.length := by
        intro b hb
        have hC : ∀ i ∈ ics, ((dcs.map fun d => f a b i d)).length = dcs.length := by
          intro i hi
          exact List.length_map dcs _
        exact length_bind_const ics _ dcs.length hC
      exact length_bind_const benchs _ _ hB
    have hfull := length_bind_const archs _ _ hA
    rw [hfull]
    ring
  · intro codes a b i d bs cmds hrb
    exact Aca.run_benchmark_ok_length codes a b i d bs cmds hrb

/-- C5 witness: a one-point sweep over (X86, crc, 128B, 256B) in the
environment `envW` produces exactly the one expected row. -/
theorem c5_sweep_cartesian_witness :
    Aca.sweepLoop envW "small" ["X86"] ["crc"] ["128B"] ["256B"] =
      .ok [⟨"X86", "crc", some 128, some 256, ((4 : Int) : Rat) / ((2 : Int) : Rat)⟩] :=
  (c5_sweep_cartesian envW "small" ["X86"] ["crc"] ["128B"] ["256B"]
    (fun _ _ _ _ => ⟨"X86", "crc", some 128, some 256, ((4 : Int) : Rat) / ((2 : Int) : Rat)⟩)
    (by
      intro a ha b hb i hi d hd
      simp only [List.mem_singleton] at ha hb hi hd
      subst ha; subst hb; subst hi; subst hd
      rfl)).1

/-- C5 counterexample: at the single sweep point (X86, susan, 16kB, 16kB)
the run launches three simulator subprocesses — one per susan mode — not
one, refuting "invokes the simulator once ... for each point". -/
theorem c5_susan_three_invocations :
    (Aca.run_benchmark codes0 "X86" "susan" "16kB" "16kB" "small").map List.length = .ok 3 ∧
    (Aca.run_benchmark codes0 "X86" "susan" "16kB" "16kB" "small").map List.length ≠ .ok 1 := by
  refine ⟨rfl, by decide⟩

/-- C7 counterexample: "16kb" does not match the claim's pattern
`\d+(k|K|M)?B`, yet aca.py's run_benchmark accepts it — the source checks
`\d+(K|M)?B` against the UPPER-cased string — and proceeds to invoke the
simulator instead of raising. -/
theorem c7_lowercase_b_accepted :
    matchesSizePattern ['k', 'K', 'M'] "16kb" = false ∧
    (Aca.run_benchmark codes0 "X86" "crc" "16kb" "128B" "small").map List.length = .ok 1 := by
  refine ⟨by decide, rfl⟩

